import Mathlib

/-!
Shallow embedding of `src/silx/gui/plot/Colormap.py` (the `Colormap` class
and its module-level constants).  Python floats are modelled by `ℚ`,
optional values (`None`) by `Option`, numpy color arrays by
`List (List ℚ)`, and raised exceptions by `Except CmapError`.
The change signal `sigChanged` carries no data and has no observer in
scope, so setters are modelled as pure state transformers.
The statistics routine `min_max` comes from `silx.math.combo`, which is
part of the repository but not under `src/`; it is modelled from the
spec (see `min_max` below).
-/

deriving instance DecidableEq for Except

namespace Silx

/-- Module constant `LINEAR = 'linear'` (Colormap.py line 56). -/
def LINEAR : String := "linear"

/-- Module constant `LOGARITHM = 'log'` (Colormap.py line 58). -/
def LOGARITHM : String := "log"

/-- Module constant `NORMALIZATIONS = (LINEAR, LOGARITHM)` (line 61). -/
def NORMALIZATIONS : List String := [LINEAR, LOGARITHM]

/-- `DEFAULT_MIN_LIN = 0` (line 64). -/
def DEFAULT_MIN_LIN : ℚ := 0

/-- `DEFAULT_MAX_LIN = 1` (line 66). -/
def DEFAULT_MAX_LIN : ℚ := 1

/-- `DEFAULT_MIN_LOG = 1` (line 68). -/
def DEFAULT_MIN_LOG : ℚ := 1

/-- `DEFAULT_MAX_LOG = 10` (line 70). -/
def DEFAULT_MAX_LOG : ℚ := 10

/-- Exceptions raised by the embedded code.  Python `AssertionError`
(the constructor assert), `ValueError` messages raised in
`_setFromDict` (the spec calls these `InvalidSpecError`), the
spec-modelled absence of a positive sample (`NoPositiveDataError`),
and the numpy error on reducing an empty array. -/
inductive CmapError where
  | assertionError : CmapError
  | invalidSpec : String → CmapError
  | noPositiveData : CmapError
  | emptyData : CmapError
deriving DecidableEq, Repr

/-- State of a `Colormap` object: the five instance attributes
`_name`, `_colors`, `_normalization`, `_vmin`, `_vmax`.
(The write-only attribute `_autoscale` set by `_setFromDict` is read by
no method and is omitted.) -/
structure Colormap where
  name : Option String
  colors : Option (List (List ℚ))
  normalization : String
  vmin : Option ℚ
  vmax : Option ℚ
deriving DecidableEq, Repr

/-- Helper for the constructor guard `vmin is not None and vmin < 1.0`. -/
def belowOne : Option ℚ → Bool
  | none => false
  | some v => decide (v < 1)

/-- `Colormap.__init__` (lines 91-107).  Returns the constructed state
together with a flag recording whether the log-scale warning was
logged.  `assert normalization in NORMALIZATIONS` raises
`AssertionError` on failure; `normalization is LOGARITHM` is modelled
as string equality (CPython interns the literal `'log'`).
`str(name)` on a string and `float(v)` on a number are identities in
this model. -/
def Colormap.init (name : Option String) (colors : Option (List (List ℚ)))
    (normalization : String) (vmin vmax : Option ℚ) :
    Except CmapError (Colormap × Bool) :=
  if normalization ∈ NORMALIZATIONS then
    if normalization = LOGARITHM ∧ (belowOne vmin || belowOne vmax) = true then
      Except.ok (⟨name, colors, normalization, none, none⟩, true)
    else
      Except.ok (⟨name, colors, normalization, vmin, vmax⟩, false)
  else
    Except.error CmapError.assertionError

/-- `Colormap.isAutoscale` (lines 109-111): `self._vmin is None or
self._vmax is None`. -/
def Colormap.isAutoscale (c : Colormap) : Bool :=
  c.vmin.isNone || c.vmax.isNone

/-- `Colormap.getName` (lines 113-117). -/
def Colormap.getName (c : Colormap) : Option String := c.name

/-- `Colormap.setName` (lines 129-139): sets `_name = str(name)` and
`_colors = None`, then emits the change signal. -/
def Colormap.setName (c : Colormap) (n : String) : Colormap :=
  { c with name := some n, colors := none }

/-- `Colormap.getColorMapLUT` (lines 141-152); the `copy` flag only
affects aliasing, invisible in a pure model. -/
def Colormap.getColorMapLUT (c : Colormap) : Option (List (List ℚ)) :=
  c.colors

/-- `Colormap.setColorMapLUT` (lines 154-169) for a non-`None` colors
argument: `_setColors` stores the table, an empty table is cleared to
`None`, and unless `keepName` the name is set to the empty string. -/
def Colormap.setColorMapLUT (c : Colormap) (colors : List (List ℚ))
    (keepName : Bool) : Colormap :=
  let c1 := { c with colors := some colors }
  let c2 := if colors.length = 0 then { c1 with colors := none } else c1
  if keepName = false then { c2 with name := some "" } else c2

/-- `Colormap.getNormalization` (lines 171-177). -/
def Colormap.getNormalization (c : Colormap) : String := c.normalization

/-- `Colormap.setNormalization` (lines 179-185): stores `str(norm)`
with no validation. -/
def Colormap.setNormalization (c : Colormap) (norm : String) : Colormap :=
  { c with normalization := norm }

/-- `Colormap.getVMin` (lines 187-193). -/
def Colormap.getVMin (c : Colormap) : Option ℚ := c.vmin

/-- `Colormap.setVMin` (lines 195-203). -/
def Colormap.setVMin (c : Colormap) (v : Option ℚ) : Colormap :=
  { c with vmin := v }

/-- `Colormap.getVMax` (lines 205-211). -/
def Colormap.getVMax (c : Colormap) : Option ℚ := c.vmax

/-- `Colormap.setVMax` (lines 213-220). -/
def Colormap.setVMax (c : Colormap) (v : Option ℚ) : Colormap :=
  { c with vmax := v }

/-- `Colormap.setVMinVMax` (lines 250-261): stores both bounds as
given. -/
def Colormap.setVMinVMax (c : Colormap) (vmin vmax : Option ℚ) : Colormap :=
  { c with vmin := vmin, vmax := vmax }

/-- Result record of the statistics routine. -/
structure MinMaxResult where
  minimum : ℚ
  maximum : ℚ
  min_positive : Option ℚ
deriving DecidableEq, Repr

/-- Modelled from the spec: `silx.math.combo.min_max` is repository
code outside `src/`.  Per the spec it computes, in one pass, the
minimum, the maximum and the min-positive of the data, where
min-positive — the smallest strictly positive sample — is present only
if at least one positive sample exists.  An empty array is a reduction
error (`none` here). -/
def min_max (data : List ℚ) : Option MinMaxResult :=
  match data with
  | [] => none
  | x :: xs =>
      let pos := (x :: xs).filter (fun v => decide (0 < v))
      some ⟨xs.foldl min x, xs.foldl max x,
            match pos with
            | [] => none
            | p :: ps => some (ps.foldl min p)⟩

/-- `Colormap._getDefaultMin` (lines 387-388). -/
def Colormap.getDefaultMin (c : Colormap) : ℚ :=
  if c.normalization = LINEAR then DEFAULT_MIN_LIN else DEFAULT_MIN_LOG

/-- `Colormap._getDefaultMax` (lines 390-391). -/
def Colormap.getDefaultMax (c : Colormap) : ℚ :=
  if c.normalization = LINEAR then DEFAULT_MAX_LIN else DEFAULT_MAX_LOG

/-- A returned bound: the code normally yields a scalar, but the
negative-`vmax` log correction (line 246) builds the two-element tuple
`result.min_positive, result.maximum`. -/
inductive RangeBound where
  | single : ℚ → RangeBound
  | pair : ℚ → ℚ → RangeBound
deriving DecidableEq, Repr

/-- Value of the local `vmin` after step `vmin = result.minimum if data
is not None else ...` (line 236), in the data-present case. -/
def Colormap.resolvedVMin (c : Colormap) (result : MinMaxResult) : ℚ :=
  match c.vmin with | some v => v | none => result.minimum

/-- Value of the local `vmax` after line 238, in the data-present
case. -/
def Colormap.resolvedVMax (c : Colormap) (result : MinMaxResult) : ℚ :=
  match c.vmax with | some v => v | none => result.maximum

/-- `Colormap.getColorMapRange` (lines 222-248).  Reading the
`min_positive` field when no positive sample exists is the
spec-modelled `NoPositiveDataError`. -/
def Colormap.getColorMapRange (c : Colormap) (data : Option (List ℚ)) :
    Except CmapError (RangeBound × RangeBound) :=
  match data with
  | none =>
      let vmin := match c.vmin with | some v => v | none => c.getDefaultMin
      let vmax := match c.vmax with | some v => v | none => c.getDefaultMax
      Except.ok (RangeBound.single vmin, RangeBound.single vmax)
  | some d =>
      match min_max d with
      | none => Except.error CmapError.emptyData
      | some result =>
          let vmin : ℚ := c.resolvedVMin result
          let vmax : ℚ := c.resolvedVMax result
          if c.getNormalization = LOGARITHM then
            if vmin < 0 then
              match result.min_positive with
              | none => Except.error CmapError.noPositiveData
              | some p =>
                  if vmax < 0 then
                    match result.min_positive with
                    | none => Except.error CmapError.noPositiveData
                    | some q =>
                        Except.ok (RangeBound.single p,
                                   RangeBound.pair q result.maximum)
                  else
                    Except.ok (RangeBound.single p, RangeBound.single vmax)
            else
              if vmax < 0 then
                match result.min_positive with
                | none => Except.error CmapError.noPositiveData
                | some q =>
                    Except.ok (RangeBound.single vmin,
                               RangeBound.pair q result.maximum)
              else
                Except.ok (RangeBound.single vmin, RangeBound.single vmax)
          else
            Except.ok (RangeBound.single vmin, RangeBound.single vmax)

/-- Value stored under the `autoscale` key of a colormap dictionary:
a genuine `bool`, or any other Python value (`other`), distinguished
because `_setFromDict` compares with `is True` / `is False`. -/
inductive AutoVal where
  | value : Bool → AutoVal
  | other : AutoVal
deriving DecidableEq, Repr

/-- A colormap dictionary.  For `name`, `colors`, `vmin`, `vmax` the
code treats a missing key exactly like a `None` value
(`dic['k'] if 'k' in dic else None`), so those collapse to one
`Option`; for `normalization` and `autoscale` key absence is
significant and is the outer `none`. -/
structure CmapDict where
  name : Option String
  colors : Option (List (List ℚ))
  vmin : Option ℚ
  vmax : Option ℚ
  autoscale : Option AutoVal
  normalization : Option String
deriving DecidableEq, Repr

/-- `Colormap._setFromDict` (lines 295-342).  Returns the new state and
a flag recording the missing-normalization warning.  All `ValueError`s
raised here are the spec's `InvalidSpecError`. -/
def Colormap.setFromDict (c : Colormap) (dic : CmapDict) :
    Except CmapError (Colormap × Bool) :=
  let name := dic.name
  let colors := dic.colors
  let vmin := dic.vmin
  let vmax := dic.vmax
  let nw : String × Bool :=
    match dic.normalization with
    | some n => (n, false)
    | none => (LINEAR, true)
  if name = none ∧ colors = none then
    Except.error (CmapError.invalidSpec "The colormap should have a name defined or a tuple of colors")
  else if nw.1 ∉ NORMALIZATIONS then
    Except.error (CmapError.invalidSpec "Given normalization is not recoginized")
  else
    let check : Except CmapError Unit :=
      match dic.autoscale with
      | none => Except.ok ()
      | some (AutoVal.value true) =>
          if vmin ≠ none ∨ vmax ≠ none then
            Except.error (CmapError.invalidSpec "autoscale is requested but vmin and vmax are also defined")
          else Except.ok ()
      | some (AutoVal.value false) =>
          if vmin = none ∧ vmax = none then
            Except.error (CmapError.invalidSpec "autoscale is not requested but vmin and vmax are both set to None")
          else Except.ok ()
      | some AutoVal.other =>
          Except.error (CmapError.invalidSpec "Autoscale value should be True or False")
    match check with
    | Except.error e => Except.error e
    | Except.ok _ => Except.ok (⟨name, colors, nw.1, vmin, vmax⟩, nw.2)

/-- `Colormap._fromDict` (lines 344-348): builds `Colormap(name="")`
then applies `_setFromDict`. -/
def Colormap.fromDict (dic : CmapDict) : Except CmapError (Colormap × Bool) :=
  match Colormap.init (some "") none LINEAR none none with
  | Except.error e => Except.error e
  | Except.ok (c, _) => c.setFromDict dic

/-- `Colormap._toDict` (lines 279-293): all six keys present,
`autoscale` holding the boolean `isAutoscale()`. -/
def Colormap.toDict (c : Colormap) : CmapDict :=
  ⟨c.name, c.colors, c.vmin, c.vmax,
   some (AutoVal.value c.isAutoscale), some c.normalization⟩

/-- Model of `numpy.array_equal` as used by `__eq__` on the two
(optional) color tables: `array_equal(None, None)` is true (two empty
0-d object arrays), a `None` against an array is false (shape
mismatch), two arrays compare by contents. -/
def array_equal : Option (List (List ℚ)) → Option (List (List ℚ)) → Bool
  | none, none => true
  | some a, some b => a == b
  | _, _ => false

/-- `Colormap.__eq__` (lines 393-400): structural comparison of name,
normalization, vmin, vmax and color table contents. -/
def Colormap.specEq (a b : Colormap) : Bool :=
  a.getName == b.getName &&
  a.getNormalization == b.getNormalization &&
  a.getVMin == b.getVMin &&
  a.getVMax == b.getVMax &&
  array_equal a.getColorMapLUT b.getColorMapLUT

/-- Whether a computation failed with the spec's `InvalidSpecError`
(a `ValueError` from `_setFromDict`). -/
def failsInvalidSpec : Except CmapError (Colormap × Bool) → Bool
  | Except.error (CmapError.invalidSpec _) => true
  | _ => false

end Silx

namespace Silx

/-! Helper lemmas about the one-pass statistics. -/

lemma foldl_min_le_init : ∀ (xs : List ℚ) (a : ℚ), xs.foldl min a ≤ a
  | [], _ => le_refl _
  | b :: bs, a =>
      le_trans (foldl_min_le_init bs (min a b)) (min_le_left a b)

lemma init_le_foldl_max : ∀ (xs : List ℚ) (a : ℚ), a ≤ xs.foldl max a
  | [], _ => le_refl _
  | b :: bs, a =>
      le_trans (le_max_left a b) (init_le_foldl_max bs (max a b))

lemma foldl_min_le : ∀ (xs : List ℚ) (x y : ℚ), y ∈ x :: xs → xs.foldl min x ≤ y := by
  intro xs
  induction xs with
  | nil =>
      intro x y hy
      rcases List.mem_singleton.mp hy with rfl
      exact le_refl _
  | cons z zs ih =>
      intro x y hy
      rcases List.mem_cons.mp hy with rfl | hy2
      · exact le_trans (foldl_min_le_init zs (min y z)) (min_le_left y z)
      · rcases List.mem_cons.mp hy2 with rfl | hy3
        · exact le_trans (foldl_min_le_init zs (min x y)) (min_le_right x y)
        · exact ih (min x z) y (List.mem_cons_of_mem _ hy3)

lemma le_foldl_max : ∀ (xs : List ℚ) (x y : ℚ), y ∈ x :: xs → y ≤ xs.foldl max x := by
  intro xs
  induction xs with
  | nil =>
      intro x y hy
      rcases List.mem_singleton.mp hy with rfl
      exact le_refl _
  | cons z zs ih =>
      intro x y hy
      rcases List.mem_cons.mp hy with rfl | hy2
      · exact le_trans (le_max_left y z) (init_le_foldl_max zs (max y z))
      · rcases List.mem_cons.mp hy2 with rfl | hy3
        · exact le_trans (le_max_right x y) (init_le_foldl_max zs (max x y))
        · exact ih (max x z) y (List.mem_cons_of_mem _ hy3)

lemma foldl_min_mem : ∀ (xs : List ℚ) (x : ℚ), xs.foldl min x ∈ x :: xs := by
  intro xs
  induction xs with
  | nil => intro x; simp
  | cons z zs ih =>
      intro x
      have h := ih (min x z)
      rcases List.mem_cons.mp h with h1 | h1
      · rcases min_choice x z with hm | hm
        · rw [List.foldl_cons, h1, hm]; exact List.mem_cons_self _ _
        · rw [List.foldl_cons, h1, hm]
          exact List.mem_cons_of_mem _ (List.mem_cons_self _ _)
      · rw [List.foldl_cons]
        exact List.mem_cons_of_mem _ (List.mem_cons_of_mem _ h1)

lemma foldl_max_mem : ∀ (xs : List ℚ) (x : ℚ), xs.foldl max x ∈ x :: xs := by
  intro xs
  induction xs with
  | nil => intro x; simp
  | cons z zs ih =>
      intro x
      have h := ih (max x z)
      rcases List.mem_cons.mp h with h1 | h1
      · rcases max_choice x z with hm | hm
        · rw [List.foldl_cons, h1, hm]; exact List.mem_cons_self _ _
        · rw [List.foldl_cons, h1, hm]
          exact List.mem_cons_of_mem _ (List.mem_cons_self _ _)
      · rw [List.foldl_cons]
        exact List.mem_cons_of_mem _ (List.mem_cons_of_mem _ h1)

/-- On a nonempty list `min_max` succeeds, its minimum and maximum are
members, and they bound every sample. -/
lemma min_max_spec (x : ℚ) (xs : List ℚ) :
    ∃ r, min_max (x :: xs) = some r ∧ r.minimum ∈ x :: xs ∧
      r.maximum ∈ x :: xs ∧
      ∀ y ∈ x :: xs, r.minimum ≤ y ∧ y ≤ r.maximum := by
  refine ⟨_, rfl, foldl_min_mem xs x, foldl_max_mem xs x, ?_⟩
  intro y hy
  exact ⟨foldl_min_le xs x y hy, le_foldl_max xs x y hy⟩

/-- When the data has no strictly positive sample the statistics carry
no `min_positive` field. -/
lemma min_max_no_positive {d : List ℚ} {r : MinMaxResult}
    (hmm : min_max d = some r) (hpos : ∀ x ∈ d, x ≤ 0) :
    r.min_positive = none := by
  cases d with
  | nil => simp [min_max] at hmm
  | cons x xs =>
      have hf : (x :: xs).filter (fun v => decide (0 < v)) = [] := by
        rw [List.filter_eq_nil_iff]
        intro a ha
        simpa using not_lt.mpr (hpos a ha)
      rw [min_max] at hmm
      simp only [hf] at hmm
      cases hmm
      rfl

/-!  Claim theorems. -/

/-- C1: the claim says a negative resolved `vmax` under LOGARITHM with
data is replaced by the single scalar `min_positive`, so the returned
`vmax` is always a single float.  The code (line 246) instead builds
the two-element tuple `result.min_positive, result.maximum`: on the
log-scale colormap with `vmax` set to `-1` and data `[1, 2, 3]` the
returned `vmax` is the pair `(1, 3)`, not the scalar `1`. -/
theorem C1_negVmax_pair_eval :
    Colormap.init (some "gray") none LOGARITHM none none =
      Except.ok (⟨some "gray", none, "log", none, none⟩, false) ∧
    (Colormap.setVMax ⟨some "gray", none, "log", none, none⟩
        (some (-1))).getColorMapRange (some [1, 2, 3]) =
      Except.ok (RangeBound.single 1, RangeBound.pair 1 3) := by
  decide

/-- C2: with LOGARITHM normalization, data containing no strictly
positive value, and a negative resolved bound (vmin or vmax),
`getColorMapRange` reports `NoPositiveDataError` rather than returning
a negative or undefined bound. -/
theorem C2_no_positive_raises (c : Colormap) (d : List ℚ) (r : MinMaxResult)
    (hnorm : c.normalization = LOGARITHM)
    (hpos : ∀ x ∈ d, x ≤ 0)
    (hmm : min_max d = some r)
    (hneg : c.resolvedVMin r < 0 ∨ c.resolvedVMax r < 0) :
    c.getColorMapRange (some d) = Except.error CmapError.noPositiveData := by
  have hmp : r.min_positive = none := min_max_no_positive hmm hpos
  have hn : c.getNormalization = LOGARITHM := hnorm
  by_cases h0 : c.resolvedVMin r < 0
  · simp [Colormap.getColorMapRange, hmm, hn, hmp, h0]
  · rcases hneg with h1 | h1
    · exact absurd h1 h0
    · simp [Colormap.getColorMapRange, hmm, hn, hmp, h0, h1]

/-- C2 witness: the spec's example, data `[-5, -2, -1]` on a log-scale
colormap with autoscale bounds. -/
theorem C2_no_positive_raises_witness :
    Colormap.getColorMapRange ⟨some "gray", none, "log", none, none⟩
      (some [-5, -2, -1]) = Except.error CmapError.noPositiveData :=
  C2_no_positive_raises ⟨some "gray", none, "log", none, none⟩
    [-5, -2, -1] ⟨-5, -1, none⟩ rfl (by decide) (by decide)
    (Or.inl (by decide))

/-- C5: constructing with LOGARITHM normalization and any supplied
bound strictly below 1.0 resets both bounds to autoscale, logs the
warning, and does not raise. -/
theorem C5_log_low_bound_reset (name : Option String)
    (colors : Option (List (List ℚ))) (vmin vmax : Option ℚ)
    (h : (belowOne vmin || belowOne vmax) = true) :
    Colormap.init name colors LOGARITHM vmin vmax =
      Except.ok (⟨name, colors, LOGARITHM, none, none⟩, true) := by
  rw [Colormap.init, if_pos (by decide), if_pos ⟨rfl, h⟩]

/-- C5 witness: `vmin = 1/2` on a log-scale constructor call. -/
theorem C5_log_low_bound_reset_witness :
    Colormap.init (some "gray") none LOGARITHM (some (1/2)) none =
      Except.ok (⟨some "gray", none, LOGARITHM, none, none⟩, true) :=
  C5_log_low_bound_reset (some "gray") none (some (1/2)) none
    (by norm_num [belowOne])

/-- C6: for every pair with `vmin ≤ vmax`, `setVMinVMax` followed by
`getVMin` and `getVMax` returns exactly the pair that was set. -/
theorem C6_setVMinVMax_roundtrip (c : Colormap) (vmin vmax : ℚ)
    (h : vmin ≤ vmax) :
    (c.setVMinVMax (some vmin) (some vmax)).getVMin = some vmin ∧
    (c.setVMinVMax (some vmin) (some vmax)).getVMax = some vmax :=
  ⟨rfl, rfl⟩

/-- C6 witness: the round-trip at `(1, 2)` on the default colormap. -/
theorem C6_setVMinVMax_roundtrip_witness :
    (Colormap.setVMinVMax ⟨some "gray", none, "linear", none, none⟩
        (some 1) (some 2)).getVMin = some 1 ∧
    (Colormap.setVMinVMax ⟨some "gray", none, "linear", none, none⟩
        (some 1) (some 2)).getVMax = some 2 :=
  C6_setVMinVMax_roundtrip ⟨some "gray", none, "linear", none, none⟩ 1 2
    (by decide)

/-- C3 counterexample: `setNormalization` stores its argument without
validation (line 184), so calling it with the string `"foo"` on a
freshly constructed colormap leaves the object with a normalization
outside `{LINEAR, LOGARITHM}`; the claimed invariant fails. -/
theorem C3_setNormalization_unvalidated :
    Colormap.init (some "gray") none LINEAR none none =
      Except.ok (⟨some "gray", none, "linear", none, none⟩, false) ∧
    (Colormap.setNormalization ⟨some "gray", none, "linear", none, none⟩
        "foo").normalization ∉ NORMALIZATIONS := by
  decide

/-- C3 amended: the invariant `normalization ∈ {LINEAR, LOGARITHM}` is
established by the constructor and by `setFromDict` whenever they
succeed, and it is preserved by every mutator except that
`setNormalization` preserves it only when its argument is itself a
recognized normalization: with an arbitrary string it stores the
string unvalidated. -/
theorem C3_normalization_invariant_amended (c : Colormap)
    (h : c.normalization ∈ NORMALIZATIONS)
    (s nrm : String) (v v1 v2 : Option ℚ) (cols : List (List ℚ)) (k : Bool)
    (nm0 : Option String) (cols0 : Option (List (List ℚ))) (n0 : String)
    (vmin0 vmax0 : Option ℚ) (c0 : Colormap) (w0 : Bool)
    (dic : CmapDict) (c1 : Colormap) (w1 : Bool) :
    (c.setName s).normalization ∈ NORMALIZATIONS ∧
    (c.setVMin v).normalization ∈ NORMALIZATIONS ∧
    (c.setVMax v).normalization ∈ NORMALIZATIONS ∧
    (c.setVMinVMax v1 v2).normalization ∈ NORMALIZATIONS ∧
    (c.setColorMapLUT cols k).normalization ∈ NORMALIZATIONS ∧
    (nrm ∈ NORMALIZATIONS →
      (c.setNormalization nrm).normalization ∈ NORMALIZATIONS) ∧
    (Colormap.init nm0 cols0 n0 vmin0 vmax0 = Except.ok (c0, w0) →
      c0.normalization ∈ NORMALIZATIONS) ∧
    (c.setFromDict dic = Except.ok (c1, w1) →
      c1.normalization ∈ NORMALIZATIONS) := by
  refine ⟨h, h, h, ?_, ?_, fun hn => hn, ?_, ?_⟩
  · exact h
  · show (Colormap.setColorMapLUT c cols k).normalization ∈ NORMALIZATIONS
    rw [Colormap.setColorMapLUT]
    split <;> split <;> exact h
  · intro hini
    rw [Colormap.init] at hini
    split_ifs at hini with hm hlog
    · cases hini; exact hm
    · cases hini; exact hm
  · intro hset
    simp only [Colormap.setFromDict] at hset
    split_ifs at hset with h1 h2
    all_goals
      split at hset
      · exact Except.noConfusion hset
      · cases hset
        exact h2

/-- C4: with both bounds null, `getColorMapRange` without data returns
exactly `(0, 1)` under LINEAR and `(1, 10)` under LOGARITHM; with
(nonempty) data under LINEAR it returns the data's minimum and maximum
(and those come from the single `min_max` statistics pass). -/
theorem C4_autoscale_defaults (c : Colormap)
    (hmin : c.vmin = none) (hmax : c.vmax = none) :
    (c.normalization = LINEAR →
      c.getColorMapRange none =
        Except.ok (RangeBound.single 0, RangeBound.single 1)) ∧
    (c.normalization = LOGARITHM →
      c.getColorMapRange none =
        Except.ok (RangeBound.single 1, RangeBound.single 10)) ∧
    (c.normalization = LINEAR → ∀ x xs r, min_max (x :: xs) = some r →
      c.getColorMapRange (some (x :: xs)) =
        Except.ok (RangeBound.single r.minimum, RangeBound.single r.maximum) ∧
      r.minimum ∈ x :: xs ∧ r.maximum ∈ x :: xs ∧
      ∀ y ∈ x :: xs, r.minimum ≤ y ∧ y ≤ r.maximum) := by
  refine ⟨?_, ?_, ?_⟩
  · intro hlin
    simp [Colormap.getColorMapRange, hmin, hmax, Colormap.getDefaultMin,
      Colormap.getDefaultMax, hlin, LINEAR, DEFAULT_MIN_LIN, DEFAULT_MAX_LIN]
  · intro hlog
    have hne : c.normalization ≠ LINEAR := by
      rw [hlog]; decide
    simp [Colormap.getColorMapRange, hmin, hmax, Colormap.getDefaultMin,
      Colormap.getDefaultMax, hne, DEFAULT_MIN_LOG, DEFAULT_MAX_LOG]
  · intro hlin x xs r hmm
    obtain ⟨r', hr', hminmem, hmaxmem, hbound⟩ := min_max_spec x xs
    rw [hmm] at hr'
    cases hr'
    have hn : c.getNormalization ≠ LOGARITHM := by
      show c.normalization ≠ LOGARITHM
      rw [hlin]; decide
    refine ⟨?_, hminmem, hmaxmem, hbound⟩
    simp [Colormap.getColorMapRange, hmm, hn, Colormap.resolvedVMin,
      Colormap.resolvedVMax, hmin, hmax]

/-- C4 witness: the spec's concrete cases, including data
`[1, 2, 3, 4, 5]` under LINEAR. -/
theorem C4_autoscale_defaults_witness :
    Colormap.getColorMapRange ⟨some "gray", none, "linear", none, none⟩
      none = Except.ok (RangeBound.single 0, RangeBound.single 1) ∧
    Colormap.getColorMapRange ⟨some "gray", none, "log", none, none⟩
      none = Except.ok (RangeBound.single 1, RangeBound.single 10) ∧
    Colormap.getColorMapRange ⟨some "gray", none, "linear", none, none⟩
      (some [1, 2, 3, 4, 5]) =
      Except.ok (RangeBound.single 1, RangeBound.single 5) := by
  refine ⟨(C4_autoscale_defaults ⟨some "gray", none, "linear", none, none⟩
      rfl rfl).1 rfl,
    (C4_autoscale_defaults ⟨some "gray", none, "log", none, none⟩
      rfl rfl).2.1 rfl, ?_⟩
  have h := (C4_autoscale_defaults ⟨some "gray", none, "linear", none, none⟩
      rfl rfl).2.2 rfl 1 [2, 3, 4, 5] ⟨1, 5, some 1⟩ (by decide)
  exact h.1

/-- Any colormap dictionary hitting one of the four consistency
violations makes `fromDict` fail with the spec's `InvalidSpecError`
(whichever of the `ValueError` sites fires first). -/
lemma fromDict_fails (dic : CmapDict)
    (h : (dic.autoscale = some (AutoVal.value true) ∧
            (dic.vmin ≠ none ∨ dic.vmax ≠ none)) ∨
         (dic.autoscale = some (AutoVal.value false) ∧
            dic.vmin = none ∧ dic.vmax = none) ∨
         dic.autoscale = some AutoVal.other ∨
         (dic.name = none ∧ dic.colors = none)) :
    failsInvalidSpec (Colormap.fromDict dic) = true := by
  have hbase : Colormap.fromDict dic =
      Colormap.setFromDict ⟨some "", none, "linear", none, none⟩ dic := rfl
  rw [hbase]
  simp only [Colormap.setFromDict]
  by_cases hnc : dic.name = none ∧ dic.colors = none
  · rw [if_pos hnc]
    rfl
  · rw [if_neg hnc]
    by_cases hnm : (match dic.normalization with
        | some n => (n, false) | none => (LINEAR, true)).1 ∉ NORMALIZATIONS
    · rw [if_pos hnm]
      rfl
    · rw [if_neg hnm]
      rcases h with ⟨ha, hv⟩ | ⟨ha, hv1, hv2⟩ | ha | hnc2
      · simp only [ha]
        rw [if_pos hv]
        rfl
      · simp only [ha]
        rw [if_pos ⟨hv1, hv2⟩]
        rfl
      · simp only [ha]
        rfl
      · exact absurd hnc2 hnc

/-- C7: `fromDict` enforces the `autoscale` consistency rules — `True`
with a non-null bound, `False` with both bounds null, a non-boolean
value — and the requirement that `name` or `colors` be non-null; each
violation fails with `InvalidSpecError`. -/
theorem C7_fromDict_validation (dic : CmapDict)
    (h : (dic.autoscale = some (AutoVal.value true) ∧
            (dic.vmin ≠ none ∨ dic.vmax ≠ none)) ∨
         (dic.autoscale = some (AutoVal.value false) ∧
            dic.vmin = none ∧ dic.vmax = none) ∨
         dic.autoscale = some AutoVal.other ∨
         (dic.name = none ∧ dic.colors = none)) :
    failsInvalidSpec (Colormap.fromDict dic) = true :=
  fromDict_fails dic h

/-- C7 witness: the spec's example
`{'autoscale': True, 'vmin': 3, 'name': 'gray'}`. -/
theorem C7_fromDict_validation_witness :
    failsInvalidSpec (Colormap.fromDict
      ⟨some "gray", none, some 3, none, some (AutoVal.value true), none⟩) =
      true :=
  C7_fromDict_validation
    ⟨some "gray", none, some 3, none, some (AutoVal.value true), none⟩
    (Or.inl ⟨rfl, Or.inl (by decide)⟩)

/-- The embedded `numpy.array_equal` coincides with structural
equality of the optional color tables. -/
lemma array_equal_iff (x y : Option (List (List ℚ))) :
    array_equal x y = true ↔ x = y := by
  cases x <;> cases y <;> simp [array_equal]

/-- `__eq__` holds exactly when the five compared fields coincide. -/
lemma specEq_iff (a b : Colormap) :
    Colormap.specEq a b = true ↔
      (a.name = b.name ∧ a.normalization = b.normalization ∧
       a.vmin = b.vmin ∧ a.vmax = b.vmax ∧ a.colors = b.colors) := by
  simp [Colormap.specEq, Colormap.getName, Colormap.getNormalization,
    Colormap.getVMin, Colormap.getVMax, Colormap.getColorMapLUT,
    Bool.and_eq_true, array_equal_iff, and_assoc]

/-- C8: equality of two colormaps is structural and symmetric in the
five compared fields — it holds exactly when name, normalization,
vmin, vmax and color-table contents all coincide — and replacing any
single one of the five fields by a different value breaks it. -/
theorem C8_structural_equality (a b : Colormap) :
    (Colormap.specEq a b = true ↔
      (a.name = b.name ∧ a.normalization = b.normalization ∧
       a.vmin = b.vmin ∧ a.vmax = b.vmax ∧ a.colors = b.colors)) ∧
    Colormap.specEq a b = Colormap.specEq b a ∧
    (∀ n, n ≠ a.name →
      Colormap.specEq a ⟨n, a.colors, a.normalization, a.vmin, a.vmax⟩ =
        false) ∧
    (∀ nrm, nrm ≠ a.normalization →
      Colormap.specEq a ⟨a.name, a.colors, nrm, a.vmin, a.vmax⟩ = false) ∧
    (∀ v, v ≠ a.vmin →
      Colormap.specEq a ⟨a.name, a.colors, a.normalization, v, a.vmax⟩ =
        false) ∧
    (∀ v, v ≠ a.vmax →
      Colormap.specEq a ⟨a.name, a.colors, a.normalization, a.vmin, v⟩ =
        false) ∧
    (∀ cl, cl ≠ a.colors →
      Colormap.specEq a ⟨a.name, cl, a.normalization, a.vmin, a.vmax⟩ =
        false) := by
  refine ⟨specEq_iff a b, ?_, ?_, ?_, ?_, ?_, ?_⟩
  · cases hab : Colormap.specEq a b <;> cases hba : Colormap.specEq b a <;>
      try rfl
    · obtain ⟨e1, e2, e3, e4, e5⟩ := (specEq_iff b a).mp hba
      rw [(specEq_iff a b).mpr ⟨e1.symm, e2.symm, e3.symm, e4.symm, e5.symm⟩]
        at hab
      exact Bool.noConfusion hab
    · obtain ⟨e1, e2, e3, e4, e5⟩ := (specEq_iff a b).mp hab
      rw [(specEq_iff b a).mpr ⟨e1.symm, e2.symm, e3.symm, e4.symm, e5.symm⟩]
        at hba
      exact Bool.noConfusion hba
  · intro n hn
    cases hq : Colormap.specEq a ⟨n, a.colors, a.normalization, a.vmin, a.vmax⟩
    · rfl
    · exact absurd ((specEq_iff _ _).mp hq).1.symm hn
  · intro nrm hn
    cases hq : Colormap.specEq a ⟨a.name, a.colors, nrm, a.vmin, a.vmax⟩
    · rfl
    · exact absurd ((specEq_iff _ _).mp hq).2.1.symm hn
  · intro v hn
    cases hq : Colormap.specEq a ⟨a.name, a.colors, a.normalization, v, a.vmax⟩
    · rfl
    · exact absurd ((specEq_iff _ _).mp hq).2.2.1.symm hn
  · intro v hn
    cases hq : Colormap.specEq a ⟨a.name, a.colors, a.normalization, a.vmin, v⟩
    · rfl
    · exact absurd ((specEq_iff _ _).mp hq).2.2.2.1.symm hn
  · intro cl hn
    cases hq : Colormap.specEq a ⟨a.name, cl, a.normalization, a.vmin, a.vmax⟩
    · rfl
    · exact absurd ((specEq_iff _ _).mp hq).2.2.2.2.symm hn

/-- C8 witness: two structurally identical default colormaps compare
equal. -/
theorem C8_structural_equality_witness :
    Colormap.specEq ⟨some "gray", none, "linear", none, none⟩
      ⟨some "gray", none, "linear", none, none⟩ = true :=
  (C8_structural_equality ⟨some "gray", none, "linear", none, none⟩
    ⟨some "gray", none, "linear", none, none⟩).1.mpr
    ⟨rfl, rfl, rfl, rfl, rfl⟩

/-- C9: `isAutoscale` is true exactly when at least one bound is null,
so `toDict` on a colormap with exactly one null bound records
`autoscale = True` next to a non-null bound, a combination `fromDict`
rejects: the dictionary round-trip fails for such states. -/
theorem C9_isAutoscale_roundtrip_fails (c : Colormap) :
    (c.isAutoscale = true ↔ (c.vmin = none ∨ c.vmax = none)) ∧
    ((c.vmin = none ∧ c.vmax ≠ none) ∨ (c.vmin ≠ none ∧ c.vmax = none) →
      c.toDict.autoscale = some (AutoVal.value true) ∧
      (c.toDict.vmin ≠ none ∨ c.toDict.vmax ≠ none) ∧
      failsInvalidSpec (Colormap.fromDict c.toDict) = true) := by
  constructor
  · simp [Colormap.isAutoscale, Bool.or_eq_true, Option.isNone_iff_eq_none]
  · intro h
    have hauto : c.isAutoscale = true := by
      rcases h with ⟨h1, _⟩ | ⟨_, h2⟩
      · simp [Colormap.isAutoscale, h1]
      · simp [Colormap.isAutoscale, h2]
    have hdic : c.toDict.autoscale = some (AutoVal.value true) := by
      simp [Colormap.toDict, hauto]
    have hbound : c.toDict.vmin ≠ none ∨ c.toDict.vmax ≠ none := by
      rcases h with ⟨_, h2⟩ | ⟨h1, _⟩
      · exact Or.inr h2
      · exact Or.inl h1
    exact ⟨hdic, hbound, fromDict_fails c.toDict (Or.inl ⟨hdic, hbound⟩)⟩

/-- C9 witness: a colormap with `vmin = 3` and `vmax` null fails the
dictionary round-trip. -/
theorem C9_isAutoscale_roundtrip_fails_witness :
    failsInvalidSpec (Colormap.fromDict (Colormap.toDict
      ⟨some "gray", none, "linear", some 3, none⟩)) = true :=
  ((C9_isAutoscale_roundtrip_fails
      ⟨some "gray", none, "linear", some 3, none⟩).2
    (Or.inr ⟨by decide, rfl⟩)).2.2

/-- C3 amended witness: `setName` on a valid state keeps the invariant. -/
theorem C3_normalization_invariant_amended_witness :
    (Colormap.setName ⟨some "gray", none, "linear", none, none⟩
        "temperature").normalization ∈ NORMALIZATIONS :=
  (C3_normalization_invariant_amended
    ⟨some "gray", none, "linear", none, none⟩ (by decide)
    "temperature" "log" none none none [] true (some "gray") none "linear"
    none none ⟨some "gray", none, "linear", none, none⟩ false
    ⟨some "gray", none, none, none, none, some "linear"⟩
    ⟨some "gray", none, "linear", none, none⟩ false).1

/-- C10: `setName` does not only replace the name: it also resets the
color table to `None`, leaving normalization and both bounds
untouched. -/
theorem C10_setName_clears_colors (c : Colormap) (s : String) :
    (c.setName s).name = some s ∧ (c.setName s).colors = none ∧
    (c.setName s).normalization = c.normalization ∧
    (c.setName s).vmin = c.vmin ∧ (c.setName s).vmax = c.vmax :=
  ⟨rfl, rfl, rfl, rfl, rfl⟩

end Silx
